import Mathlib

/-!
Shallow embedding of the Arduino Judge score/session state machine
(Arduino_Judge.ino) and its microgame dispatcher (Microgames.ino).

Side effects (servo commands, LED writes, sound cues, delays) are embedded
as an explicit list of events produced alongside the new score, so that the
order and content of the observable behaviour of each routine can be stated
and proved.  The score is the C int `score`, modelled as Int (the deltas and
thresholds involved are far below any overflow boundary).
-/

set_option linter.unusedVariables false

namespace ArduinoJudge

/-- Modelled from the spec: the GameResult enumeration is defined in the
missing header Arduino_Judge.h.  The spec (section 3) lists the eight scored
outcomes, GameTied, and "any outcome the game dispatcher may report that does
not affect score, e.g. a communication failure"; the eight scored outcomes and
GameTied also appear verbatim in the shown source. -/
inductive GameResult
  | CorrectAttack
  | WasCorrectlyAttacked
  | IncorrectAttack
  | WasIncorrectlyAttacked
  | CorrectDodge
  | WasCorrectlyDodged
  | IncorrectDodge
  | WasIncorrectlyDodged
  | GameTied
  | CommunicationFailed
deriving DecidableEq

/-- Modelled from the spec: the four score-delta configuration constants
(correctAttackPoints, incorrectAttackPoints, correctDodgePoints,
incorrectDodgePoints) are declared in the missing header Arduino_Judge.h;
the spec says they are named configuration constants, so they are carried
as parameters and every theorem holds for all values. -/
structure Points where
  correctAttackPoints : Int
  incorrectAttackPoints : Int
  correctDodgePoints : Int
  incorrectDodgePoints : Int

/-- Observable side effects of the score/session state machine. -/
inductive Event
  | servoWrite (pos : Int)
  | delayMs (ms : Nat)
  | whiteLED (high : Bool)
  | sfxInstantOfVictory (b : Bool)
  | sfxVictoryJingle (b : Bool)
  | sfxGameOver
  | victoryCall (didWin : Bool)
deriving DecidableEq

/-- Modelled from the spec: Arduino's constrain builtin,
amt < low gives low, amt > high gives high, otherwise amt. -/
def constrain (x a b : Int) : Int :=
  if x < a then a else if b < x then b else x

/-- Modelled from the spec: Arduino's map builtin,
(x - inMin) * (outMax - outMin) / (inMax - inMin) + outMin with C integer
division, which truncates toward zero (Int.tdiv). -/
def map (x inMin inMax outMin outMax : Int) : Int :=
  Int.tdiv ((x - inMin) * (outMax - outMin)) (inMax - inMin) + outMin

/-- Position commanded to the servo for a given score: updateServo first does
constrain(score, -80, 80), then map(score, -80, 80, 10, 170). -/
def servoPos (score : Int) : Int :=
  map (constrain score (-80) 80) (-80) 80 10 170

/-- updateServo from the source: constrain, map, servo.write(score),
delay(200). -/
def updateServo (score : Int) : List Event :=
  [Event.servoWrite (servoPos score), Event.delayMs 200]

/-- The sound/LED cues of handleVictory, in source order: instant-of-victory
SFX with argument true, white LED HIGH, victory jingle SFX with argument
true, white LED LOW, game-over SFX. -/
def victoryCues : List Event :=
  [Event.sfxInstantOfVictory true, Event.whiteLED true,
   Event.sfxVictoryJingle true, Event.whiteLED false, Event.sfxGameOver]

/-- handleVictory from the source: plays the cues, then sets score = 0 and
calls updateServo(score).  The didWin argument is never read by the body. -/
def handleVictory (didWin : Bool) : Int × List Event :=
  (0, victoryCues ++ updateServo 0)

/-- The switch statement of updateScore: the score delta applied for each
GameResult, written exactly as the source cases write it (add or subtract
the named constant; the default case leaves the score unchanged). -/
def applyOutcome (p : Points) (result : GameResult) (score : Int) : Int :=
  match result with
  | GameResult.CorrectAttack => score + p.correctAttackPoints
  | GameResult.WasCorrectlyAttacked => score - p.correctAttackPoints
  | GameResult.IncorrectAttack => score - p.incorrectAttackPoints
  | GameResult.WasIncorrectlyAttacked => score + p.incorrectAttackPoints
  | GameResult.CorrectDodge => score + p.correctDodgePoints
  | GameResult.WasCorrectlyDodged => score - p.correctDodgePoints
  | GameResult.IncorrectDodge => score - p.incorrectDodgePoints
  | GameResult.WasIncorrectlyDodged => score + p.incorrectDodgePoints
  | _ => score

/-- The outcome-to-delta table exactly as the spec words it (section 4.2),
kept separate from applyOutcome so the source switch can be compared
against the spec table as a refinement. -/
def specDelta (p : Points) : GameResult → Int
  | GameResult.CorrectAttack => p.correctAttackPoints
  | GameResult.WasCorrectlyAttacked => -p.correctAttackPoints
  | GameResult.IncorrectAttack => -p.incorrectAttackPoints
  | GameResult.WasIncorrectlyAttacked => p.incorrectAttackPoints
  | GameResult.CorrectDodge => p.correctDodgePoints
  | GameResult.WasCorrectlyDodged => -p.correctDodgePoints
  | GameResult.IncorrectDodge => -p.incorrectDodgePoints
  | GameResult.WasIncorrectlyDodged => p.incorrectDodgePoints
  | _ => 0

/-- updateScore from the source: apply the switch delta, call
updateServo(score), then check the thresholds: score >= 80 calls
handleVictory(true), else score <= -80 calls handleVictory(false).
The victoryCall event records each handleVictory invocation with its
argument at the call site. -/
def updateScore (p : Points) (result : GameResult) (score : Int) : Int × List Event :=
  if 80 ≤ applyOutcome p result score then
    ((handleVictory true).1,
      updateServo (applyOutcome p result score) ++
        Event.victoryCall true :: (handleVictory true).2)
  else if applyOutcome p result score ≤ -80 then
    ((handleVictory false).1,
      updateServo (applyOutcome p result score) ++
        Event.victoryCall false :: (handleVictory false).2)
  else
    (applyOutcome p result score, updateServo (applyOutcome p result score))

/-- Repeated rounds: each loop iteration feeds one microgame result to
updateScore; scores thread through, events accumulate in order. -/
def runRounds (p : Points) : List GameResult → Int → Int × List Event
  | [], s => (s, [])
  | r :: rs, s =>
      ((runRounds p rs (updateScore p r s).1).1,
       (updateScore p r s).2 ++ (runRounds p rs (updateScore p r s).1).2)

/-- Recogniser for handleVictory invocations among the events. -/
def Event.isVictoryCall : Event → Bool
  | Event.victoryCall _ => true
  | _ => false

/-- Recogniser for handleVictory invocations with didWin = true. -/
def Event.isVictoryCallTrue : Event → Bool
  | Event.victoryCall b => b
  | _ => false

/-- Number of handleVictory invocations recorded in an event list. -/
def countVictories (evs : List Event) : Nat :=
  (evs.filter Event.isVictoryCall).length

/-- Number of handleVictory(true) invocations recorded in an event list. -/
def countVictoriesTrue (evs : List Event) : Nat :=
  (evs.filter Event.isVictoryCallTrue).length

/-- Sum of the spec deltas over a list of outcomes. -/
def sumDeltas (p : Points) (rs : List GameResult) : Int :=
  (rs.map (specDelta p)).sum

/-- Total milliseconds spent in delay calls in an event list. -/
def totalDelayMs (evs : List Event) : Nat :=
  (evs.map fun e => match e with | Event.delayMs ms => ms | _ => 0).sum

/-- flashHigherPlayersLED from the source: if myNumber >= otherNumber, three
times (white LED HIGH, delay 250, white LED LOW, delay 250); otherwise
delay(500 * 3). -/
def flashHigherPlayersLED (myNumber otherNumber : Nat) : List Event :=
  if myNumber ≥ otherNumber then
    (List.replicate 3
      [Event.whiteLED true, Event.delayMs 250,
       Event.whiteLED false, Event.delayMs 250]).flatten
  else
    [Event.delayMs (500 * 3)]

/-- Modelled from the spec: the GameID enumeration is defined in the missing
header Arduino_Judge.h; the spec (section 3) lists its six enumerators in
the order PiezoPitch, PiezoRhythm, LEDNumber, LEDBrightest, LEDFrequency,
LDRCover, which is also the order of the dispatcher's switch.  The dispatch
switch is modelled on the underlying enum encoding so that out-of-range
identifiers (the default case) are representable. -/
def PiezoPitch : Nat := 0

/-- GameID enumerator PiezoRhythm (see PiezoPitch). -/
def PiezoRhythm : Nat := 1

/-- GameID enumerator LEDNumber (see PiezoPitch). -/
def LEDNumber : Nat := 2

/-- GameID enumerator LEDBrightest (see PiezoPitch). -/
def LEDBrightest : Nat := 3

/-- GameID enumerator LEDFrequency (see PiezoPitch). -/
def LEDFrequency : Nat := 4

/-- GameID enumerator LDRCover (see PiezoPitch). -/
def LDRCover : Nat := 5

/-- The six known GameID values. -/
def knownGameIDs : List Nat :=
  [PiezoPitch, PiezoRhythm, LEDNumber, LEDBrightest, LEDFrequency, LDRCover]

/-- Microgame stub from Microgames.ino: piezo, highest note; returns
GameTied. -/
def runPiezoPitch (myNumber otherNumber : Nat) : GameResult := GameResult.GameTied

/-- Microgame stub from Microgames.ino: piezo, fastest rhythm; returns
GameTied. -/
def runPiezoRhythm (myNumber otherNumber : Nat) : GameResult := GameResult.GameTied

/-- Microgame stub from Microgames.ino: LED, 4-bit highest number; returns
GameTied. -/
def runLEDNumber (myNumber otherNumber : Nat) : GameResult := GameResult.GameTied

/-- Microgame stub from Microgames.ino: LED, brightest; returns GameTied. -/
def runLEDBrightest (myNumber otherNumber : Nat) : GameResult := GameResult.GameTied

/-- Microgame stub from Microgames.ino: LED, fastest frequency; returns
GameTied. -/
def runLEDFrequency (myNumber otherNumber : Nat) : GameResult := GameResult.GameTied

/-- Microgame stub from Microgames.ino: LDR, first to cover; returns
GameTied. -/
def runLDRCover : GameResult := GameResult.GameTied

/-- Names of the microgame routines a dispatch can land in, used to record
which routine runMicrogame invokes. -/
inductive Routine
  | piezoPitch
  | piezoRhythm
  | ledNumber
  | ledBrightest
  | ledFrequency
  | ldrCover
deriving DecidableEq

/-- Result of one dispatch: either some routine was invoked and returned a
GameResult, or the default case invoked handleCommunicationError. -/
inductive DispatchResult
  | invoked (r : Routine) (res : GameResult)
  | commError
deriving DecidableEq

/-- runMicrogame from Microgames.ino: switch on the game identifier, each
case returning the named routine's result; note the LEDNumber case invokes
runPiezoRhythm in the source.  The default case calls
handleCommunicationError and returns no GameResult. -/
def runMicrogame (game myNumber otherNumber : Nat) : DispatchResult :=
  if game = PiezoPitch then
    DispatchResult.invoked Routine.piezoPitch (runPiezoPitch myNumber otherNumber)
  else if game = PiezoRhythm then
    DispatchResult.invoked Routine.piezoRhythm (runPiezoRhythm myNumber otherNumber)
  else if game = LEDNumber then
    DispatchResult.invoked Routine.piezoRhythm (runPiezoRhythm myNumber otherNumber)
  else if game = LEDBrightest then
    DispatchResult.invoked Routine.ledBrightest (runLEDBrightest myNumber otherNumber)
  else if game = LEDFrequency then
    DispatchResult.invoked Routine.ledFrequency (runLEDFrequency myNumber otherNumber)
  else if game = LDRCover then
    DispatchResult.invoked Routine.ldrCover runLDRCover
  else
    DispatchResult.commError

/-- Modelled from the spec: the round loop feeds the dispatcher's result to
updateScore; handleCommunicationError (external collaborator, not in the
shown source) "must not return normally into score logic", so on the
default path updateScore is never invoked and the score is unchanged. -/
def roundScore (p : Points) (game myNumber otherNumber : Nat) (s : Int) : Int :=
  match runMicrogame game myNumber otherNumber with
  | DispatchResult.invoked _ res => (updateScore p res s).1
  | DispatchResult.commError => s

/-! Helper lemmas shared by the claim theorems. -/

theorem applyOutcome_eq_add (p : Points) (r : GameResult) (s : Int) :
    applyOutcome p r s = s + specDelta p r := by
  cases r <;> simp [applyOutcome, specDelta, sub_eq_add_neg]

theorem map_shift (c : Int) : map c (-80) 80 10 170 = c + 90 := by
  have h : (c - -80) * (170 - 10) = (c + 80) * 160 := by ring
  have h2 : ((80 : Int) - -80) = 160 := by norm_num
  rw [map, h, h2, Int.mul_tdiv_cancel _ (by norm_num : (160 : Int) ≠ 0)]
  ring

theorem servoPos_eq (s : Int) : servoPos s = constrain s (-80) 80 + 90 := by
  rw [servoPos, map_shift]

theorem constrain_mem (s : Int) :
    -80 ≤ constrain s (-80) 80 ∧ constrain s (-80) 80 ≤ 80 := by
  unfold constrain
  split_ifs <;> omega

theorem countVictories_append (a b : List Event) :
    countVictories (a ++ b) = countVictories a + countVictories b := by
  simp [countVictories, List.filter_append]

theorem countVictoriesTrue_append (a b : List Event) :
    countVictoriesTrue (a ++ b) = countVictoriesTrue a + countVictoriesTrue b := by
  simp [countVictoriesTrue, List.filter_append]

theorem countVictories_updateServo (s : Int) :
    countVictories (updateServo s) = 0 := by
  simp [countVictories, updateServo, Event.isVictoryCall, List.filter]

theorem countVictoriesTrue_updateServo (s : Int) :
    countVictoriesTrue (updateServo s) = 0 := by
  simp [countVictoriesTrue, updateServo, Event.isVictoryCallTrue, List.filter]

theorem countVictories_handleVictory (b : Bool) :
    countVictories (handleVictory b).2 = 0 := by
  simp [countVictories, handleVictory, victoryCues, updateServo,
    Event.isVictoryCall, List.filter]

theorem countVictoriesTrue_handleVictory (b : Bool) :
    countVictoriesTrue (handleVictory b).2 = 0 := by
  simp [countVictoriesTrue, handleVictory, victoryCues, updateServo,
    Event.isVictoryCallTrue, List.filter]

theorem countVictories_cons_call (b : Bool) (l : List Event) :
    countVictories (Event.victoryCall b :: l) = countVictories l + 1 := by
  simp [countVictories, List.filter_cons, Event.isVictoryCall]

theorem countVictoriesTrue_cons_call (b : Bool) (l : List Event) :
    countVictoriesTrue (Event.victoryCall b :: l) =
      countVictoriesTrue l + (if b then 1 else 0) := by
  cases b <;>
    simp [countVictoriesTrue, List.filter_cons, Event.isVictoryCallTrue]

theorem updateScore_high (p : Points) (r : GameResult) (s : Int)
    (h : 80 ≤ applyOutcome p r s) :
    updateScore p r s =
      (0, updateServo (applyOutcome p r s) ++
        Event.victoryCall true :: (handleVictory true).2) := by
  rw [updateScore, if_pos h]
  rfl

theorem updateScore_low (p : Points) (r : GameResult) (s : Int)
    (h : applyOutcome p r s ≤ -80) :
    updateScore p r s =
      (0, updateServo (applyOutcome p r s) ++
        Event.victoryCall false :: (handleVictory false).2) := by
  rw [updateScore, if_neg (by omega), if_pos h]
  rfl

theorem updateScore_mid (p : Points) (r : GameResult) (s : Int)
    (h1 : -80 < applyOutcome p r s) (h2 : applyOutcome p r s < 80) :
    updateScore p r s =
      (applyOutcome p r s, updateServo (applyOutcome p r s)) := by
  rw [updateScore, if_neg (by omega), if_neg (by omega)]

theorem sumDeltas_nil (p : Points) : sumDeltas p [] = 0 := rfl

theorem sumDeltas_cons (p : Points) (r : GameResult) (rs : List GameResult) :
    sumDeltas p (r :: rs) = specDelta p r + sumDeltas p rs := by
  simp [sumDeltas]

theorem sumDeltas_append (p : Points) (xs ys : List GameResult) :
    sumDeltas p (xs ++ ys) = sumDeltas p xs + sumDeltas p ys := by
  simp [sumDeltas]

theorem runRounds_append (p : Points) (xs ys : List GameResult) (s : Int) :
    runRounds p (xs ++ ys) s =
      ((runRounds p ys (runRounds p xs s).1).1,
       (runRounds p xs s).2 ++ (runRounds p ys (runRounds p xs s).1).2) := by
  induction xs generalizing s with
  | nil => simp [runRounds]
  | cons r xs ih => simp [runRounds, ih, List.append_assoc]

theorem runRounds_no_victory (p : Points) (rs : List GameResult) :
    ∀ s : Int,
      (∀ n ≤ rs.length,
        -80 < s + sumDeltas p (rs.take n) ∧ s + sumDeltas p (rs.take n) < 80) →
      (runRounds p rs s).1 = s + sumDeltas p rs ∧
      countVictories (runRounds p rs s).2 = 0 ∧
      countVictoriesTrue (runRounds p rs s).2 = 0 := by
  induction rs with
  | nil =>
    intro s h
    simp [runRounds, sumDeltas, countVictories, countVictoriesTrue]
  | cons r rs ih =>
    intro s h
    have h1 := h 1 (by simp)
    rw [List.take_succ_cons, List.take_zero, sumDeltas_cons, sumDeltas_nil] at h1
    have hd : applyOutcome p r s = s + specDelta p r := applyOutcome_eq_add p r s
    have hmid := updateScore_mid p r s (by omega) (by omega)
    have hshift : ∀ n ≤ rs.length,
        -80 < (s + specDelta p r) + sumDeltas p (rs.take n) ∧
        (s + specDelta p r) + sumDeltas p (rs.take n) < 80 := by
      intro n hn
      have := h (n + 1) (by simpa using Nat.succ_le_succ hn)
      rw [List.take_succ_cons, sumDeltas_cons] at this
      constructor <;> omega
    have ihr := ih (s + specDelta p r) hshift
    have hfst : (updateScore p r s).1 = s + specDelta p r := by rw [hmid, hd]
    refine ⟨?_, ?_, ?_⟩
    · show (runRounds p rs (updateScore p r s).1).1 = _
      rw [hfst, ihr.1, sumDeltas_cons]
      ring
    · show countVictories ((updateScore p r s).2 ++
        (runRounds p rs (updateScore p r s).1).2) = 0
      rw [countVictories_append, hfst, hmid]
      simpa [countVictories_updateServo] using ihr.2.1
    · show countVictoriesTrue ((updateScore p r s).2 ++
        (runRounds p rs (updateScore p r s).1).2) = 0
      rw [countVictoriesTrue_append, hfst, hmid]
      simpa [countVictoriesTrue_updateServo] using ihr.2.2

/-! Claim theorems. -/

/-- C1: for every round outcome and every starting Score, the updateScore
switch adds exactly the delta of the fixed table (CorrectAttack
+correctAttackPoints, WasCorrectlyAttacked -correctAttackPoints,
IncorrectAttack -incorrectAttackPoints, WasIncorrectlyAttacked
+incorrectAttackPoints, CorrectDodge +correctDodgePoints, WasCorrectlyDodged
-correctDodgePoints, IncorrectDodge -incorrectDodgePoints,
WasIncorrectlyDodged +incorrectDodgePoints, everything else zero); in
particular CorrectAttack on Score 0 yields +correctAttackPoints and
WasIncorrectlyDodged on Score 0 yields +incorrectDodgePoints. -/
theorem updateScore_delta_table (p : Points) (s : Int) :
    (∀ r, applyOutcome p r s = s + specDelta p r)
  ∧ applyOutcome p GameResult.CorrectAttack s = s + p.correctAttackPoints
  ∧ applyOutcome p GameResult.WasCorrectlyAttacked s = s - p.correctAttackPoints
  ∧ applyOutcome p GameResult.IncorrectAttack s = s - p.incorrectAttackPoints
  ∧ applyOutcome p GameResult.WasIncorrectlyAttacked s = s + p.incorrectAttackPoints
  ∧ applyOutcome p GameResult.CorrectDodge s = s + p.correctDodgePoints
  ∧ applyOutcome p GameResult.WasCorrectlyDodged s = s - p.correctDodgePoints
  ∧ applyOutcome p GameResult.IncorrectDodge s = s - p.incorrectDodgePoints
  ∧ applyOutcome p GameResult.WasIncorrectlyDodged s = s + p.incorrectDodgePoints
  ∧ applyOutcome p GameResult.GameTied s = s
  ∧ applyOutcome p GameResult.CommunicationFailed s = s
  ∧ applyOutcome p GameResult.CorrectAttack 0 = p.correctAttackPoints
  ∧ applyOutcome p GameResult.WasIncorrectlyDodged 0 = p.incorrectDodgePoints := by
  refine ⟨fun r => applyOutcome_eq_add p r s, ?_⟩
  simp [applyOutcome]

/-- C3: the display mapping of updateServo first clamps the Score to
[-80, 80] and then linearly remaps the clamped value (adding 90, which is
the exact value of map(x, -80, 80, 10, 170)), so the commanded servo
position always lies in [10, 170]; Score -80 maps to 10, Score 0 to 90 and
Score 80 to 170, and updateServo commands exactly that position.  Proved
for every integer Score, in particular for all of [-200, 200]. -/
theorem updateServo_clamps_and_maps (s : Int) :
    servoPos s = map (constrain s (-80) 80) (-80) 80 10 170
  ∧ servoPos s = constrain s (-80) 80 + 90
  ∧ 10 ≤ servoPos s ∧ servoPos s ≤ 170
  ∧ servoPos (-80) = 10 ∧ servoPos 0 = 90 ∧ servoPos 80 = 170
  ∧ updateServo s = [Event.servoWrite (servoPos s), Event.delayMs 200] := by
  have hm := constrain_mem s
  refine ⟨rfl, servoPos_eq s, ?_, ?_, by decide, by decide, by decide, rfl⟩
  · rw [servoPos_eq]; omega
  · rw [servoPos_eq]; omega

/-- C4: for each mirrored outcome pair, applying the positive member and
then the negative member to a fresh Score of 0 yields Score 0, and each
pair's deltas are equal in magnitude and opposite in sign. -/
theorem outcome_pairs_mirror (p : Points) :
    applyOutcome p GameResult.WasCorrectlyAttacked
      (applyOutcome p GameResult.CorrectAttack 0) = 0
  ∧ applyOutcome p GameResult.IncorrectAttack
      (applyOutcome p GameResult.WasIncorrectlyAttacked 0) = 0
  ∧ applyOutcome p GameResult.WasCorrectlyDodged
      (applyOutcome p GameResult.CorrectDodge 0) = 0
  ∧ applyOutcome p GameResult.IncorrectDodge
      (applyOutcome p GameResult.WasIncorrectlyDodged 0) = 0
  ∧ specDelta p GameResult.CorrectAttack
      = -specDelta p GameResult.WasCorrectlyAttacked
  ∧ specDelta p GameResult.WasIncorrectlyAttacked
      = -specDelta p GameResult.IncorrectAttack
  ∧ specDelta p GameResult.CorrectDodge
      = -specDelta p GameResult.WasCorrectlyDodged
  ∧ specDelta p GameResult.WasIncorrectlyDodged
      = -specDelta p GameResult.IncorrectDodge := by
  simp [applyOutcome, specDelta]

/-- C9: for every outcome and every starting Score, the Score updateScore
returns lies strictly between the victory thresholds, -80 < Score < 80:
either no threshold was reached and the post-delta score is returned, or
handleVictory reset the Score to 0. -/
theorem updateScore_result_within_thresholds
    (p : Points) (r : GameResult) (s : Int) :
    -80 < (updateScore p r s).1 ∧ (updateScore p r s).1 < 80
  ∧ ((updateScore p r s).1 = applyOutcome p r s ∨ (updateScore p r s).1 = 0) := by
  by_cases h1 : 80 ≤ applyOutcome p r s
  · rw [updateScore_high p r s h1]
    exact ⟨by norm_num, by norm_num, Or.inr rfl⟩
  · by_cases h2 : applyOutcome p r s ≤ -80
    · rw [updateScore_low p r s h2]
      exact ⟨by norm_num, by norm_num, Or.inr rfl⟩
    · rw [updateScore_mid p r s (by omega) (by omega)]
      exact ⟨by omega, by omega, Or.inl rfl⟩

/-- C10: handleVictory's observable behaviour is independent of its didWin
argument: both didWin = true and didWin = false produce the identical cue
sequence (instant-of-victory SFX with argument true, white LED on, victory
jingle SFX with argument true, white LED off, game-over SFX) and the
identical final state (Score 0, servo re-commanded to the position for
Score 0, namely 90). -/
theorem handleVictory_ignores_didWin :
    (∀ didWin, handleVictory didWin = handleVictory true)
  ∧ handleVictory true =
      (0, [Event.sfxInstantOfVictory true, Event.whiteLED true,
           Event.sfxVictoryJingle true, Event.whiteLED false,
           Event.sfxGameOver, Event.servoWrite (servoPos 0), Event.delayMs 200])
  ∧ servoPos 0 = 90 :=
  ⟨fun _ => rfl, rfl, by decide⟩

/-- C8: the round-end indicator routine flashes the local white LED three
times (250 ms on, 250 ms off each) when myNumber >= otherNumber, so a tie
flashes the local indicator; otherwise it performs no flashing and only
waits 1500 ms; in both branches the total delay is the same 1500 ms. -/
theorem flashHigherPlayersLED_behaviour (myNumber otherNumber : Nat) :
    (otherNumber ≤ myNumber →
      flashHigherPlayersLED myNumber otherNumber =
        [Event.whiteLED true, Event.delayMs 250,
         Event.whiteLED false, Event.delayMs 250,
         Event.whiteLED true, Event.delayMs 250,
         Event.whiteLED false, Event.delayMs 250,
         Event.whiteLED true, Event.delayMs 250,
         Event.whiteLED false, Event.delayMs 250])
  ∧ (myNumber < otherNumber →
      flashHigherPlayersLED myNumber otherNumber = [Event.delayMs 1500])
  ∧ totalDelayMs (flashHigherPlayersLED myNumber otherNumber) = 1500 := by
  refine ⟨fun h => ?_, fun h => ?_, ?_⟩
  · rw [flashHigherPlayersLED, if_pos h]
    decide
  · rw [flashHigherPlayersLED, if_neg (by omega)]
  · by_cases h : otherNumber ≤ myNumber
    · rw [flashHigherPlayersLED, if_pos h]
      decide
    · rw [flashHigherPlayersLED, if_neg (by omega)]
      decide

/-- Witness for C8 at the concrete pairs (3, 3) (a tie, which flashes) and
(1, 2) (local side lost, so only the 1500 ms wait happens). -/
theorem flashHigherPlayersLED_behaviour_witness :
    flashHigherPlayersLED 3 3 =
      [Event.whiteLED true, Event.delayMs 250,
       Event.whiteLED false, Event.delayMs 250,
       Event.whiteLED true, Event.delayMs 250,
       Event.whiteLED false, Event.delayMs 250,
       Event.whiteLED true, Event.delayMs 250,
       Event.whiteLED false, Event.delayMs 250]
  ∧ flashHigherPlayersLED 1 2 = [Event.delayMs 1500]
  ∧ totalDelayMs (flashHigherPlayersLED 1 2) = 1500 :=
  ⟨(flashHigherPlayersLED_behaviour 3 3).1 (by decide),
   (flashHigherPlayersLED_behaviour 1 2).2.1 (by decide),
   (flashHigherPlayersLED_behaviour 1 2).2.2⟩

/-- C5, evaluation at the failing input: the dispatcher's LEDNumber case
invokes runPiezoRhythm (the rhythm routine), not the LED-number routine;
the five other known identifiers do invoke their correspondingly named
routines and return their results unchanged. -/
theorem runMicrogame_LEDNumber_misdispatch (myNumber otherNumber : Nat) :
    runMicrogame LEDNumber myNumber otherNumber =
      DispatchResult.invoked Routine.piezoRhythm (runPiezoRhythm myNumber otherNumber)
  ∧ Routine.piezoRhythm ≠ Routine.ledNumber
  ∧ runMicrogame PiezoPitch myNumber otherNumber =
      DispatchResult.invoked Routine.piezoPitch (runPiezoPitch myNumber otherNumber)
  ∧ runMicrogame PiezoRhythm myNumber otherNumber =
      DispatchResult.invoked Routine.piezoRhythm (runPiezoRhythm myNumber otherNumber)
  ∧ runMicrogame LEDBrightest myNumber otherNumber =
      DispatchResult.invoked Routine.ledBrightest (runLEDBrightest myNumber otherNumber)
  ∧ runMicrogame LEDFrequency myNumber otherNumber =
      DispatchResult.invoked Routine.ledFrequency (runLEDFrequency myNumber otherNumber)
  ∧ runMicrogame LDRCover myNumber otherNumber =
      DispatchResult.invoked Routine.ldrCover runLDRCover :=
  ⟨rfl, by decide, rfl, rfl, rfl, rfl, rfl⟩

/-- C6: a Round Identifier outside the six known values takes the
dispatcher's default case, which invokes handleCommunicationError and
produces no outcome; since that handler does not return into score logic,
applyOutcome is never reached and the Score is unchanged. -/
theorem unknown_gameID_comm_error (p : Points) (game myNumber otherNumber : Nat)
    (s : Int) (h : game ∉ knownGameIDs) :
    runMicrogame game myNumber otherNumber = DispatchResult.commError
  ∧ roundScore p game myNumber otherNumber s = s := by
  simp only [knownGameIDs, PiezoPitch, PiezoRhythm, LEDNumber, LEDBrightest,
    LEDFrequency, LDRCover, List.mem_cons, List.not_mem_nil, or_false,
    not_or] at h
  obtain ⟨h0, h1, h2, h3, h4, h5⟩ := h
  have hrun : runMicrogame game myNumber otherNumber = DispatchResult.commError := by
    rw [runMicrogame]
    simp only [PiezoPitch, PiezoRhythm, LEDNumber, LEDBrightest, LEDFrequency,
      LDRCover]
    rw [if_neg h0, if_neg h1, if_neg h2, if_neg h3, if_neg h4, if_neg h5]
  refine ⟨hrun, ?_⟩
  rw [roundScore, hrun]

/-- Witness for C6 at the concrete out-of-range identifier 6. -/
theorem unknown_gameID_comm_error_witness :
    runMicrogame 6 3 4 = DispatchResult.commError
  ∧ roundScore ⟨20, 10, 15, 5⟩ 6 3 4 7 = 7 :=
  unknown_gameID_comm_error ⟨20, 10, 15, 5⟩ 6 3 4 7 (by decide)

/-- C7: on every call to updateScore, for every outcome and every starting
Score, the servo is commanded with the post-delta Score as the first
observable effect, before any victory handling; when no threshold is
reached those servo events are the whole effect of the call. -/
theorem servo_commanded_before_victory_check
    (p : Points) (r : GameResult) (s : Int) :
    (∃ rest, (updateScore p r s).2 = updateServo (applyOutcome p r s) ++ rest)
  ∧ (-80 < applyOutcome p r s ∧ applyOutcome p r s < 80 →
      (updateScore p r s).2 = updateServo (applyOutcome p r s)) := by
  constructor
  · by_cases h1 : 80 ≤ applyOutcome p r s
    · exact ⟨_, by rw [updateScore_high p r s h1]⟩
    · by_cases h2 : applyOutcome p r s ≤ -80
      · exact ⟨_, by rw [updateScore_low p r s h2]⟩
      · exact ⟨[], by rw [updateScore_mid p r s (by omega) (by omega)]; simp⟩
  · intro h
    rw [updateScore_mid p r s h.1 h.2]

/-- Witness for C7: a below-threshold round (GameTied at Score 0) where the
whole effect is the servo command with the unchanged score, and the
unconditional first-servo-command part at a threshold-crossing round. -/
theorem servo_commanded_before_victory_check_witness :
    (updateScore ⟨20, 10, 15, 5⟩ GameResult.GameTied 0).2 =
      updateServo (applyOutcome ⟨20, 10, 15, 5⟩ GameResult.GameTied 0)
  ∧ ∃ rest, (updateScore ⟨20, 10, 15, 5⟩ GameResult.CorrectAttack 70).2 =
      updateServo (applyOutcome ⟨20, 10, 15, 5⟩ GameResult.CorrectAttack 70) ++ rest :=
  ⟨(servo_commanded_before_victory_check ⟨20, 10, 15, 5⟩ GameResult.GameTied 0).2
      (by decide),
   (servo_commanded_before_victory_check ⟨20, 10, 15, 5⟩ GameResult.CorrectAttack 70).1⟩

/-- C2: after the delta is applied, Score at or above +80 invokes the
victory handler exactly once with the local side as winner, Score at or
below -80 invokes it exactly once with the local side as loser, never both
in one round, and in either case the handler ends with Score 0 and the
display re-committed; consequently a run of rounds from Score 0 whose
deltas stay inside the thresholds until their total reaches +80 or more
triggers exactly one victory-for-local-side call, after which Score is 0. -/
theorem victory_threshold_behaviour (p : Points) (result : GameResult) (s : Int) :
    (80 ≤ applyOutcome p result s →
      updateScore p result s =
        (0, updateServo (applyOutcome p result s) ++
          Event.victoryCall true :: (handleVictory true).2))
  ∧ (applyOutcome p result s ≤ -80 →
      updateScore p result s =
        (0, updateServo (applyOutcome p result s) ++
          Event.victoryCall false :: (handleVictory false).2))
  ∧ countVictories (updateScore p result s).2 ≤ 1
  ∧ (∀ didWin, (handleVictory didWin).1 = 0 ∧
      (handleVictory didWin).2 = victoryCues ++ updateServo 0)
  ∧ (∀ (rs : List GameResult) (r : GameResult),
      (∀ n ≤ rs.length,
        -80 < sumDeltas p (rs.take n) ∧ sumDeltas p (rs.take n) < 80) →
      80 ≤ sumDeltas p (rs ++ [r]) →
      (runRounds p (rs ++ [r]) 0).1 = 0
      ∧ countVictories (runRounds p (rs ++ [r]) 0).2 = 1
      ∧ countVictoriesTrue (runRounds p (rs ++ [r]) 0).2 = 1) := by
  refine ⟨updateScore_high p result s, updateScore_low p result s, ?_,
    fun didWin => ⟨rfl, rfl⟩, ?_⟩
  · by_cases h1 : 80 ≤ applyOutcome p result s
    · rw [updateScore_high p result s h1]
      simp [countVictories_append, countVictories_cons_call,
        countVictories_updateServo, countVictories_handleVictory]
    · by_cases h2 : applyOutcome p result s ≤ -80
      · rw [updateScore_low p result s h2]
        simp [countVictories_append, countVictories_cons_call,
          countVictories_updateServo, countVictories_handleVictory]
      · rw [updateScore_mid p result s (by omega) (by omega)]
        simp [countVictories_updateServo]
  · intro rs r hpre htot
    have hno := runRounds_no_victory p rs 0 (by
      intro n hn
      have h := hpre n hn
      constructor <;> omega)
    have hu1 : (runRounds p rs 0).1 = sumDeltas p rs := by
      have h := hno.1
      omega
    have hs1 : applyOutcome p r (runRounds p rs 0).1 = sumDeltas p (rs ++ [r]) := by
      rw [applyOutcome_eq_add, hu1, sumDeltas_append, sumDeltas_cons, sumDeltas_nil]
      ring
    have hhigh := updateScore_high p r (runRounds p rs 0).1 (by rw [hs1]; exact htot)
    have hone : runRounds p [r] (runRounds p rs 0).1 =
        updateScore p r (runRounds p rs 0).1 := by
      simp [runRounds]
    have hsplit := runRounds_append p rs [r] 0
    refine ⟨?_, ?_, ?_⟩
    · rw [hsplit]
      simp [hone, hhigh]
    · rw [hsplit]
      simp only [hone, hhigh]
      rw [countVictories_append, hno.2.1, countVictories_append,
        countVictories_updateServo, countVictories_cons_call,
        countVictories_handleVictory]
    · rw [hsplit]
      simp only [hone, hhigh]
      rw [countVictoriesTrue_append, hno.2.2, countVictoriesTrue_append,
        countVictoriesTrue_updateServo, countVictoriesTrue_cons_call,
        countVictoriesTrue_handleVictory]
      decide

/-- Witness for C2: with correctAttackPoints = 20, CorrectAttack at Score 70
crosses the +80 threshold and produces the single victory-for-local-side
call with Score reset to 0; with correctAttackPoints = 60, the two-round
run CorrectAttack, CorrectAttack from Score 0 (deltas 60, then total 120)
triggers exactly one victory-for-local-side call and ends at Score 0. -/
theorem victory_threshold_behaviour_witness :
    updateScore ⟨20, 10, 15, 5⟩ GameResult.CorrectAttack 70 =
      (0, updateServo (applyOutcome ⟨20, 10, 15, 5⟩ GameResult.CorrectAttack 70) ++
        Event.victoryCall true :: (handleVictory true).2)
  ∧ (runRounds ⟨60, 10, 15, 5⟩
      [GameResult.CorrectAttack, GameResult.CorrectAttack] 0).1 = 0
  ∧ countVictories (runRounds ⟨60, 10, 15, 5⟩
      [GameResult.CorrectAttack, GameResult.CorrectAttack] 0).2 = 1
  ∧ countVictoriesTrue (runRounds ⟨60, 10, 15, 5⟩
      [GameResult.CorrectAttack, GameResult.CorrectAttack] 0).2 = 1 := by
  have hseq := (victory_threshold_behaviour ⟨60, 10, 15, 5⟩ GameResult.GameTied 0).2.2.2.2
    [GameResult.CorrectAttack] GameResult.CorrectAttack
    (by decide) (by decide)
  exact ⟨(victory_threshold_behaviour ⟨20, 10, 15, 5⟩ GameResult.CorrectAttack 70).1
      (by decide),
    hseq.1, hseq.2.1, hseq.2.2⟩

end ArduinoJudge
